import Mathlib

/-!
# Verification of `guard.py`

A shallow embedding in Lean 4 of the logic of `src/guard.py`, a single-file
dashboard application, together with proofs of its specified properties.

The file embeds, faithfully to the Python source:

* the severity-weight table and the mock assessment runner `run_mock_test`
  (both variants present in the source: the second one adds a `finally:`
  block resetting `running_test`);
* the session-state initializer `initialize_session_state`;
* the file-format dispatcher `handle_multiple_file_formats`;
* the DOI format validator `is_valid_doi_format` (its specific regular
  expression, unfolded into an executable matcher);
* APA author formatting `format_authors_apa` and `format_citation`.

Randomness (`random.random`, `random.choice`), wall-clock timestamps,
exceptions raised by the environment, and the external clearing of the
shared `running_test` flag are made explicit through an `Oracle` record:
one oracle value describes one concrete execution of a run.
-/

/-! ## DOI format validation

Embeds `is_valid_doi_format` (guard.py:2368-2371), whose body is
`re.match(r'^10.\d{4,9}/[-._;()/:A-Z0-9]+$', doi, re.IGNORECASE) is not None`.
The regex is unfolded: `10`, then any single character (the `.` in the
pattern is unescaped, hence matches any character), then 4 to 9 digits,
then `/`, then one or more characters of the class `[-._;()/:A-Z0-9]`
taken case-insensitively. -/

/-- One character of the class `[-._;()/:A-Z0-9]` under `re.IGNORECASE`. -/
def doiSuffixChar (c : Char) : Bool :=
  c = '-' || c = '.' || c = '_' || c = ';' || c = '(' || c = ')' ||
  c = '/' || c = ':' || c.isDigit || ('A' ≤ c && c ≤ 'Z') || ('a' ≤ c && c ≤ 'z')

/-- Matches `\d{4,9}/[-._;()/:A-Z0-9]+$` against the remaining characters:
some `d ∈ [4,9]` leading digits, a `/`, then a nonempty all-suffix tail. -/
def doiTailMatch (cs : List Char) : Bool :=
  (List.range' 4 6).any fun d =>
    decide (d ≤ cs.length) && (cs.take d).all Char.isDigit &&
    match cs.drop d with
    | '/' :: rest => !rest.isEmpty && rest.all doiSuffixChar
    | _ => false

/-- `is_valid_doi_format` (guard.py:2368-2371): anchored match of
`^10.\d{4,9}/[-._;()/:A-Z0-9]+$` with `re.IGNORECASE`. -/
def is_valid_doi_format (doi : String) : Bool :=
  match doi.toList with
  | '1' :: '0' :: _ :: rest => doiTailMatch rest
  | _ => false

/-! ## APA author formatting

Embeds `format_authors_apa` (guard.py:2394-2409) and `format_citation`
(guard.py:2411-2439). A CrossRef author record contributes its `family`
and `given` fields (absent keys default to `''` via `author.get`). -/

/-- An author record as consumed by `format_authors_apa`: the values of
`author.get('family','')` and `author.get('given','')`. -/
structure Author where
  family : String
  given : String
deriving Repr, DecidableEq

/-- `''.join([name[0] + '.' for name in author.get('given','').split()])`:
Python `str.split()` splits on whitespace runs and drops empty pieces. -/
def authorInitials (given : String) : String :=
  String.join ((given.split Char.isWhitespace).filter (fun w => !w.isEmpty)
    |>.map (fun w => w.take 1 ++ "."))

/-- The entry `f"{last_name}, {initials}"` appended to `authors_list` for
one author (guard.py:2398-2400). -/
def formatAuthor (a : Author) : String :=
  a.family ++ ", " ++ authorInitials a.given

/-- `format_authors_apa` (guard.py:2394-2409). -/
def format_authors_apa (authors : List Author) : String :=
  let authors_list := authors.map formatAuthor
  if authors_list.isEmpty then "Anonymous"
  else if authors_list.length = 1 then authors_list.headD ""
  else if authors_list.length ≤ 20 then
    String.intercalate ", " authors_list.dropLast ++ ", & " ++ authors_list.getLastD ""
  else
    String.intercalate ", " (authors_list.take 19) ++ ", ... " ++ authors_list.getLastD ""

/-! ## Citation formatting

Embeds `format_citation` (guard.py:2411-2439). A CrossRef article record is
a dictionary with optional keys; each field below holds the value the Python
code effectively works with after its `article.get(...)` defaulting:

* `published_print`, `published_online`, `issued` hold the effective
  `date-parts` list, the absence of either key being represented by the
  Python default `[[None]]`, i.e. `[[none]]`;
* `title` and `container_title` default to `['']`, i.e. `[""]`;
* `doi` defaults to `''`.

Python `x[0]` on an empty list raises `IndexError`; the embedding returns
`none` (outer `Option`) on those paths.  Line guard.py:2424 reads
`ifif not year:` — a syntax slip in a line that duplicates the preceding
two lines verbatim; it is modelled as the evident `if`, which repeats the
idempotent `issued` fallback and does not change the result. -/

/-- `article.get(k, {}).get('date-parts', [[None]])[0][0]`: `none` models
the `IndexError` raised when the list or its first row is empty. -/
def dpYear (dateParts : List (List (Option Int))) : Option (Option Int) :=
  match dateParts with
  | [] => none
  | row :: _ =>
    match row with
    | [] => none
    | y :: _ => some y

/-- Python truthiness of the extracted `year`: `None` and `0` are falsy. -/
def yearTruthy : Option Int → Bool
  | none => false
  | some y => y != 0

/-- The string Python interpolates for `{year}`: the integer, or `n.d.`. -/
def yearText : Option Int → String
  | none => "n.d."
  | some y => toString y

/-- A CrossRef article record as consumed by `format_citation`, after
`article.get` defaulting (see the section comment). -/
structure Article where
  author : List Author
  published_print : List (List (Option Int))
  published_online : List (List (Option Int))
  issued : List (List (Option Int))
  title : List String
  container_title : List String
  doi : String

/-- The `year` value after the fallback chain guard.py:2419-2427
(`published-print`, then `published-online`, then `issued` — twice, the
second occurrence being the `ifif` slip — `none` = `IndexError`). -/
def citationYear (a : Article) : Option (Option Int) :=
  match dpYear a.published_print with
  | none => none
  | some y1 =>
    if yearTruthy y1 then some y1
    else match dpYear a.published_online with
    | none => none
    | some y2 =>
      if yearTruthy y2 then some y2
      else match dpYear a.issued with
      | none => none
      | some y3 =>
        if yearTruthy y3 then some y3
        else match dpYear a.issued with
        | none => none
        | some y4 => some y4

/-- `format_citation` (guard.py:2411-2439) with `style="APA"`.  The input
`none` stands for a falsy `article` (`if not article: return None`); the
result `none` models an `IndexError` escaping, `some none` the `return
None`, and `some (some c)` a produced citation string `c`. -/
def format_citation (article : Option Article) : Option (Option String) :=
  match article with
  | none => some none
  | some a =>
    match citationYear a with
    | none => none
    | some yv =>
      let year := if yearTruthy yv then yearText yv else "n.d."
      match a.title with
      | [] => none
      | title :: _ =>
        match a.container_title with
        | [] => none
        | journal :: _ =>
          let citation := format_authors_apa a.author ++ " (" ++ year ++ "). " ++ title
          let citation := if journal ≠ "" then citation ++ ". " ++ journal else citation
          let citation :=
            if a.doi ≠ "" then citation ++ ". https://doi.org/" ++ a.doi else citation
          some (some citation)

/-! ## File-format dispatch

Embeds `handle_multiple_file_formats` (guard.py:1983-2053).  The branch
bodies call external libraries (`json`, `pandas`, `pypdf`, `ElementTree`,
`yaml`); those calls are abstracted as a `Parsers` record mapping the raw
file content to either a parsed value or an exception message.  The
interesting logic — extension extraction, the dispatch chain, the explicit
unsupported-format value, and the catch-all turning exceptions into
`{"error": "Failed to process file: ..."}` — is embedded faithfully. -/

/-- An uploaded file: its `name` and raw content. -/
structure UploadedFile where
  name : String
  content : String

/-- Stand-in for the value a library parser returns (dict, DataFrame,
extracted text, ...): an opaque tag plus payload. -/
structure FileValue where
  tag : String
  payload : String
deriving Repr, DecidableEq

/-- Outcomes of the external parser calls, one per supported branch:
`Except.error m` models the library raising an exception with message `m`. -/
structure Parsers where
  json : String → Except String FileValue
  csv : String → Except String FileValue
  excel : String → Except String FileValue
  pdf : String → Except String FileValue
  xml : String → Except String FileValue
  yaml : String → Except String FileValue

/-- The result of `handle_multiple_file_formats`: either a parsed value or
the `{"error": msg}` mapping the function returns on its error paths. -/
inductive FileOutcome where
  | value (v : FileValue)
  | errorMap (msg : String)
deriving Repr, DecidableEq

/-- Python `str.split('.')`: cut the character list at every `'.'`; the
second argument accumulates the current piece in reverse. -/
def splitDot : List Char → List Char → List (List Char)
  | [], acc => [acc.reverse]
  | c :: rest, acc =>
    if c = '.' then acc.reverse :: splitDot rest []
    else splitDot rest (c :: acc)

/-- `uploaded_file.name.split('.')[-1].lower()` (guard.py:1986): the last
piece of the dot-split name, lower-cased character by character.  A name
with no dot splits into one piece, itself, exactly as in Python. -/
def fileExtension (name : String) : String :=
  String.mk (((splitDot name.toList []).getLastD []).map Char.toLower)

/-- The surrounding `try`/`except` (guard.py:1985,2051-2053): a library
exception becomes `{"error": f"Failed to process file: {e}"}`. -/
def catchParse (r : Except String FileValue) : FileOutcome :=
  match r with
  | Except.ok v => FileOutcome.value v
  | Except.error e => FileOutcome.errorMap ("Failed to process file: " ++ e)

/-- `handle_multiple_file_formats` (guard.py:1983-2053). -/
def handle_multiple_file_formats (p : Parsers) (uploaded_file : UploadedFile) : FileOutcome :=
  let file_extension := fileExtension uploaded_file.name
  if file_extension = "json" then catchParse (p.json uploaded_file.content)
  else if file_extension = "csv" then catchParse (p.csv uploaded_file.content)
  else if file_extension = "xlsx" ∨ file_extension = "xls" then
    catchParse (p.excel uploaded_file.content)
  else if file_extension = "pdf" then catchParse (p.pdf uploaded_file.content)
  else if file_extension = "xml" then catchParse (p.xml uploaded_file.content)
  else if file_extension = "yaml" ∨ file_extension = "yml" then
    catchParse (p.yaml uploaded_file.content)
  else FileOutcome.errorMap ("Unsupported file format: " ++ file_extension)

/-- The extensions the dispatch chain of `handle_multiple_file_formats`
handles without falling through to the unsupported-format branch. -/
def supportedExtensions : List String :=
  ["json", "csv", "xlsx", "xls", "pdf", "xml", "yaml", "yml"]

/-! ## The mock assessment runner

Embeds `run_mock_test` (guard.py:748-829, first variant, and
guard.py:1895-1980, second variant).  The two bodies are identical except
that the second adds `finally: st.session_state.running_test = False`.

Sources of nondeterminism and interference are made explicit in an
`Oracle` describing one concrete execution:

* `findAt i` — whether `random.random() < 0.2` held at step `i`;
* `pick i` — the index `random.choice(test_vectors)` drew at step `i`
  (reduced modulo the catalog length; `random.choice` on an empty
  sequence raises, which the step models as an exception);
* `clearedAt` — `some c` if an external actor cleared the shared
  `running_test` flag during the run, before the flag check of step `c`
  (`none`: never cleared during the run);
* `raiseAt`/`exnMsg` — `some e` if the environment raised an exception
  with message `exnMsg` inside the body of step `e`;
* `stamp i`, `finalStamp`, `tracebackText` — the `datetime.now()`
  strings and `traceback.format_exc()` text observed.
-/

/-- A configured target; `run_mock_test` only reads `target['name']`. -/
structure Target where
  name : String
deriving Repr, DecidableEq

/-- A test-vector catalog entry as read by `run_mock_test`. -/
structure TestVector where
  id : String
  name : String
  severity : String
deriving Repr, DecidableEq

/-- `severity_weight = {"low": 1, "medium": 2, "high": 3, "critical": 5}`
followed by `.get(vector["severity"], 1)` (guard.py:785-786). -/
def severityWeight (severity : String) : Nat :=
  if severity = "low" then 1
  else if severity = "medium" then 2
  else if severity = "high" then 3
  else if severity = "critical" then 5
  else 1

/-- One vulnerability finding appended to `results["vulnerabilities"]`
(guard.py:789-797). -/
structure Vulnerability where
  id : String
  test_vector : String
  test_name : String
  severity : String
  details : String
  timestamp : String
deriving Repr, DecidableEq

/-- `results["summary"]` (guard.py:760-764). -/
structure Summary where
  total_tests : Nat
  vulnerabilities_found : Nat
  risk_score : Nat
deriving Repr, DecidableEq

/-- The finalized `results` dictionary (guard.py:759-767, 806-809). -/
structure RunResult where
  summary : Summary
  vulnerabilities : List Vulnerability
  timestamp : String
  target : String
deriving Repr, DecidableEq

/-- The `error_details` dictionary built in the `except` branch
(guard.py:818-823). -/
structure ErrorDetails where
  error : Bool
  error_message : String
  traceback : String
  timestamp : String
deriving Repr, DecidableEq

/-- What `run_mock_test` returns: the finalized `results`, or the
`error_details` of a caught exception. -/
inductive RunOutcome where
  | ok (res : RunResult)
  | err (e : ErrorDetails)
deriving Repr, DecidableEq

/-- `true` iff the outcome is the `error_details` of a caught exception. -/
def RunOutcome.isErr : RunOutcome → Bool
  | RunOutcome.ok _ => false
  | RunOutcome.err _ => true

/-- The session-state fields `run_mock_test` reads or writes
(`st.session_state.progress`, `.vulnerabilities_found`, `.running_test`,
`.test_results`, `.error_message`). -/
structure Session where
  progress : ℚ
  vulnerabilities_found : Nat
  running_test : Bool
  test_results : Option RunResult
  error_message : Option String
deriving Repr, DecidableEq

/-- One concrete execution's random draws, timestamps, interference and
environment exceptions (see the section comment). -/
structure Oracle where
  findAt : Nat → Bool
  pick : Nat → Nat
  clearedAt : Option Nat
  raiseAt : Option Nat
  exnMsg : String
  stamp : Nat → String
  finalStamp : String
  tracebackText : String

/-- The value of the shared `running_test` flag as observed by the check
`if not st.session_state.running_test` at the top of step `i`. -/
def flagAt (o : Oracle) (i : Nat) : Bool :=
  match o.clearedAt with
  | none => true
  | some c => decide (i < c)

/-- `step_sleep = duration / total_steps` (guard.py:771). -/
def step_sleep (duration : ℚ) : ℚ := duration / 100

/-- `total_steps = 100` (guard.py:770). -/
def total_steps : Nat := 100

/-- The mutable state of the step loop: session fields written so far, the
accumulating `results` fields, the sleeps performed, whether the loop has
exited via `break`, and a pending caught exception. -/
structure LoopState where
  progress : ℚ
  sessionVulns : Nat
  vulnerabilities : List Vulnerability
  summaryVulns : Nat
  riskScore : Nat
  sleeps : List ℚ
  broken : Bool
  exn : Option String
deriving Repr, DecidableEq

/-- The loop state on entry (guard.py:752-767): progress and counters
reset, empty result lists. -/
def initLoopState : LoopState :=
  { progress := 0, sessionVulns := 0, vulnerabilities := [], summaryVulns := 0,
    riskScore := 0, sleeps := [], broken := false, exn := none }

/-- One iteration of the `for i in range(total_steps)` loop
(guard.py:773-804) at index `i`: flag check and `break`, `time.sleep`,
progress update, and the 20%-chance finding block. -/
def mockStep (tgt : Target) (tvs : List TestVector) (duration : ℚ) (o : Oracle)
    (st : LoopState) (i : Nat) : LoopState :=
  if st.broken ∨ st.exn.isSome then st
  else if flagAt o i = false then { st with broken := true }
  else if o.raiseAt = some i then { st with exn := some o.exnMsg }
  else
    let st := { st with sleeps := st.sleeps ++ [step_sleep duration],
                        progress := ((i : ℚ) + 1) / 100 }
    if o.findAt i then
      match tvs.get? (o.pick i % tvs.length) with
      | none => { st with exn := some "Cannot choose from an empty sequence" }
      | some vector =>
        let weight := severityWeight vector.severity
        let vulnerability : Vulnerability :=
          { id := "VULN-" ++ toString (st.vulnerabilities.length + 1)
            test_vector := vector.id
            test_name := vector.name
            severity := vector.severity
            details := "Mock vulnerability found in " ++ tgt.name ++ " using "
                         ++ vector.name ++ " test vector."
            timestamp := o.stamp i }
        { st with vulnerabilities := st.vulnerabilities ++ [vulnerability]
                  sessionVulns := st.sessionVulns + 1
                  summaryVulns := st.summaryVulns + 1
                  riskScore := st.riskScore + weight }
    else st

/-- The loop state after the iterations of indices `0, …, n-1`. -/
def mockLoop (tgt : Target) (tvs : List TestVector) (duration : ℚ) (o : Oracle) :
    Nat → LoopState
  | 0 => initLoopState
  | n + 1 => mockStep tgt tvs duration o (mockLoop tgt tvs duration o n) n

/-- What `run_mock_test` does after the loop, on the loop state `st`: the
`try`/`except` dispatch on whether an exception was caught.  On the normal
path the result is finalized and stored (guard.py:806-814); on the
exception path the `error_details` payload is built and the error slot set
(guard.py:817-829).  On exit the shared `running_test` flag holds `true` as
written at the start (guard.py:754) unless the external clear of
`o.clearedAt` occurred. -/
def finalizeRun (tgt : Target) (tvs : List TestVector) (o : Oracle) (s : Session)
    (st : LoopState) : Session × RunOutcome :=
  match st.exn with
  | some msg =>
    let error_details : ErrorDetails :=
      { error := true, error_message := msg, traceback := o.tracebackText,
        timestamp := o.finalStamp }
    ({ s with progress := st.progress, vulnerabilities_found := st.sessionVulns,
              running_test := o.clearedAt.isNone,
              error_message := some ("Test execution failed: " ++ msg) },
     RunOutcome.err error_details)
  | none =>
    let results : RunResult :=
      { summary := { total_tests := tvs.length * 10,
                     vulnerabilities_found := st.summaryVulns,
                     risk_score := st.riskScore }
        vulnerabilities := st.vulnerabilities
        timestamp := o.finalStamp
        target := tgt.name }
    ({ s with progress := st.progress, vulnerabilities_found := st.sessionVulns,
              running_test := o.clearedAt.isNone,
              test_results := some results },
     RunOutcome.ok results)

/-- `run_mock_test` (guard.py:748-829), the first variant, which has no
`finally:` block.  Applied to the session state `s` on entry, it returns
the session state on exit and the function's return value: the step loop
(guard.py:773-804) followed by the finalization / exception dispatch. -/
def run_mock_test_v1 (tgt : Target) (tvs : List TestVector) (duration : ℚ)
    (o : Oracle) (s : Session) : Session × RunOutcome :=
  finalizeRun tgt tvs o s (mockLoop tgt tvs duration o total_steps)

/-- `run_mock_test` (guard.py:1895-1980), the second variant: identical to
the first, plus `finally: st.session_state.running_test = False`
(guard.py:1978-1980) on every exit path. -/
def run_mock_test_v2 (tgt : Target) (tvs : List TestVector) (duration : ℚ)
    (o : Oracle) (s : Session) : Session × RunOutcome :=
  let out := run_mock_test_v1 tgt tvs duration o s
  ({ out.1 with running_test := false }, out.2)

/-! ## Session-state initialization

Embeds `initialize_session_state` (guard.py:53-115; the second definition
at guard.py:1197-1259 is verbatim identical).  Here the session state is
viewed at slot granularity: each Streamlit slot is `Option`-valued, `none`
meaning the key is absent (`'x' not in st.session_state`) and `some v`
that it is populated with `v`.  Python's `st.session_state.error_message =
None` does create the key, so that slot has type `Option (Option String)`.
Slot value types follow the defaults assigned in the source; `test_results`
starts as the empty dict `{}` (no run result yet), modelled `none`. -/

/-- The full Streamlit session state at slot granularity: every slot
`initialize_session_state` touches, in source order (guard.py:57-110). -/
structure AppState where
  targets : Option (List Target)
  test_results : Option (Option RunResult)
  running_test : Option Bool
  progress : Option ℚ
  vulnerabilities_found : Option Nat
  current_theme : Option String
  current_page : Option String
  active_threads : Option (List Nat)
  error_message : Option (Option String)
  bias_results : Option (List (String × String))
  show_bias_results : Option Bool
  carbon_tracking_active : Option Bool
  carbon_measurements : Option (List ℚ)
  VALIDATION_STRICTNESS : Option Nat
  reports : Option (List String)
  insights : Option (List String)
deriving Repr, DecidableEq

/-- One guarded initialization `if 'x' not in st.session_state:
st.session_state.x = default`. -/
def initSlot {α : Type} (slot : Option α) (default : α) : Option α :=
  match slot with
  | some v => some v
  | none => some default

/-- `initialize_session_state` (guard.py:53-115): each slot is defaulted
only when absent, with the defaults of guard.py:57-110. -/
def initialize_session_state (s : AppState) : AppState :=
  { targets := initSlot s.targets []
    test_results := initSlot s.test_results none
    running_test := initSlot s.running_test false
    progress := initSlot s.progress 0
    vulnerabilities_found := initSlot s.vulnerabilities_found 0
    current_theme := initSlot s.current_theme "dark"
    current_page := initSlot s.current_page "Dashboard"
    active_threads := initSlot s.active_threads []
    error_message := initSlot s.error_message none
    bias_results := initSlot s.bias_results []
    show_bias_results := initSlot s.show_bias_results false
    carbon_tracking_active := initSlot s.carbon_tracking_active false
    carbon_measurements := initSlot s.carbon_measurements []
    VALIDATION_STRICTNESS := initSlot s.VALIDATION_STRICTNESS 2
    reports := initSlot s.reports []
    insights := initSlot s.insights [] }

/-- Every slot of `s` that is populated keeps its value across
`initialize_session_state` (no clobbering). -/
def slotsPreserved (s : AppState) : Prop :=
  (∀ v, s.targets = some v → (initialize_session_state s).targets = some v) ∧
  (∀ v, s.test_results = some v → (initialize_session_state s).test_results = some v) ∧
  (∀ v, s.running_test = some v → (initialize_session_state s).running_test = some v) ∧
  (∀ v, s.progress = some v → (initialize_session_state s).progress = some v) ∧
  (∀ v, s.vulnerabilities_found = some v →
    (initialize_session_state s).vulnerabilities_found = some v) ∧
  (∀ v, s.current_theme = some v → (initialize_session_state s).current_theme = some v) ∧
  (∀ v, s.current_page = some v → (initialize_session_state s).current_page = some v) ∧
  (∀ v, s.active_threads = some v → (initialize_session_state s).active_threads = some v) ∧
  (∀ v, s.error_message = some v → (initialize_session_state s).error_message = some v) ∧
  (∀ v, s.bias_results = some v → (initialize_session_state s).bias_results = some v) ∧
  (∀ v, s.show_bias_results = some v →
    (initialize_session_state s).show_bias_results = some v) ∧
  (∀ v, s.carbon_tracking_active = some v →
    (initialize_session_state s).carbon_tracking_active = some v) ∧
  (∀ v, s.carbon_measurements = some v →
    (initialize_session_state s).carbon_measurements = some v) ∧
  (∀ v, s.VALIDATION_STRICTNESS = some v →
    (initialize_session_state s).VALIDATION_STRICTNESS = some v) ∧
  (∀ v, s.reports = some v → (initialize_session_state s).reports = some v) ∧
  (∀ v, s.insights = some v → (initialize_session_state s).insights = some v)

/-! ## Concrete executions

Closed example values used to instantiate the theorems below on concrete
runs: one target, a one-vector catalog, and oracles describing a normal
run (findings at steps 0, 1, 2), a run with an exception at step 2, and a
run cancelled before the check of step 5. -/

/-- A concrete target. -/
def exTarget : Target := ⟨"demo"⟩

/-- A concrete one-vector catalog of `critical` severity. -/
def exVectors : List TestVector := [⟨"TV-1", "Prompt Injection", "critical"⟩]

/-- A concrete session state on entry to `run_mock_test`. -/
def exSession : Session := ⟨0, 0, false, none, none⟩

/-- A normal execution: `random.random() < 0.2` holds at steps 0, 1, 2
only; no external cancel, no exception. -/
def exOracle : Oracle :=
  { findAt := fun i => i < 3, pick := fun _ => 0, clearedAt := none, raiseAt := none,
    exnMsg := "boom", stamp := fun i => toString i, finalStamp := "fin",
    tracebackText := "tb" }

/-- The same execution, except the environment raises `boom` at step 2. -/
def exOracleRaise : Oracle := { exOracle with raiseAt := some 2 }

/-- The same execution, except the `running_test` flag is cleared
externally before the check of step 5. -/
def exOracleCancel : Oracle := { exOracle with clearedAt := some 5 }

/-- The `n`-th finding the normal execution materializes at the step whose
timestamp is `ts`. -/
def exFinding (n : Nat) (ts : String) : Vulnerability :=
  { id := "VULN-" ++ toString n, test_vector := "TV-1", test_name := "Prompt Injection",
    severity := "critical",
    details := "Mock vulnerability found in demo using Prompt Injection test vector.",
    timestamp := ts }

/-- The `results` dictionary the normal execution finalizes: 3 critical
findings, `risk_score = 15`, `total_tests = 1 * 10`. -/
def exResult : RunResult :=
  { summary := { total_tests := 10, vulnerabilities_found := 3, risk_score := 15 },
    vulnerabilities := [exFinding 1 "0", exFinding 2 "1", exFinding 3 "2"],
    timestamp := "fin", target := "demo" }

/-- The `error_details` payload of the raising execution. -/
def exErrorDetails : ErrorDetails := ⟨true, "boom", "tb", "fin"⟩

/-- A session state with only the `current_theme` slot populated — and
populated with a value that differs from the initializer's default. -/
def exAppState : AppState :=
  { targets := none, test_results := none, running_test := none, progress := none,
    vulnerabilities_found := none, current_theme := some "light", current_page := none,
    active_threads := none, error_message := none, bias_results := none,
    show_bias_results := none, carbon_tracking_active := none, carbon_measurements := none,
    VALIDATION_STRICTNESS := none, reports := none, insights := none }

/-- A concrete three-author list. -/
def exAuthorsThree : List Author := [⟨"Aa", "P Q"⟩, ⟨"Bb", "R"⟩, ⟨"Cc", "S"⟩]

/-- A concrete twenty-five-author list. -/
def exAuthorsTwentyFive : List Author :=
  (List.range 25).map (fun i => ⟨"Last" ++ toString i, "G"⟩)

/-- Concrete parser outcomes: every library call succeeds. -/
def exParsers : Parsers :=
  { json := fun c => Except.ok ⟨"json", c⟩, csv := fun c => Except.ok ⟨"csv", c⟩,
    excel := fun c => Except.ok ⟨"excel", c⟩, pdf := fun c => Except.ok ⟨"pdf", c⟩,
    xml := fun c => Except.ok ⟨"xml", c⟩, yaml := fun c => Except.ok ⟨"yaml", c⟩ }

/-- A concrete upload with an unsupported extension. -/
def exUpload : UploadedFile := ⟨"assessment.txt", "raw"⟩

/-! ## Loop invariants -/

/-- Throughout the step loop, `risk_score` is the severity-weighted sum
over the findings list, and both `vulnerabilities_found` counters (the
session one and the summary one) equal its length: the three counters are
only ever updated together with the `append` (guard.py:797-802). -/
theorem mockLoop_counts (tgt : Target) (tvs : List TestVector) (dur : ℚ) (o : Oracle)
    (n : Nat) :
    (mockLoop tgt tvs dur o n).riskScore
        = ((mockLoop tgt tvs dur o n).vulnerabilities.map
            (fun v => severityWeight v.severity)).sum
      ∧ (mockLoop tgt tvs dur o n).sessionVulns
        = (mockLoop tgt tvs dur o n).vulnerabilities.length
      ∧ (mockLoop tgt tvs dur o n).summaryVulns
        = (mockLoop tgt tvs dur o n).vulnerabilities.length := by
  induction n with
  | zero => simp [mockLoop, initLoopState]
  | succ n ih =>
    obtain ⟨h1, h2, h3⟩ := ih
    simp only [mockLoop, mockStep]
    split
    · exact ⟨h1, h2, h3⟩
    split
    · exact ⟨h1, h2, h3⟩
    split
    · exact ⟨h1, h2, h3⟩
    split
    · split
      · exact ⟨h1, h2, h3⟩
      · simp_all
    · exact ⟨h1, h2, h3⟩

/-- While the flag reads `true` at every check performed so far and the
environment raises nothing, the loop is in its normal course: not broken,
no exception, one sleep of `duration/100` per step, and `progress = n/100`
after `n` steps. -/
theorem mockLoop_active (tgt : Target) (tvs : List TestVector) (dur : ℚ) (o : Oracle)
    (hr : o.raiseAt = none) (hne : tvs ≠ []) (n : Nat)
    (hn : ∀ i, i < n → flagAt o i = true) :
    (mockLoop tgt tvs dur o n).broken = false
      ∧ (mockLoop tgt tvs dur o n).exn = none
      ∧ (mockLoop tgt tvs dur o n).sleeps = List.replicate n (step_sleep dur)
      ∧ (mockLoop tgt tvs dur o n).progress = (n : ℚ) / 100 := by
  induction n with
  | zero => simp [mockLoop, initLoopState]
  | succ n ih =>
    obtain ⟨h1, h2, h3, h4⟩ := ih (fun i hi => hn i (Nat.lt_succ_of_lt hi))
    have hflag : flagAt o n = true := hn n (Nat.lt_succ_self n)
    have hget : ∃ v, tvs.get? (o.pick n % tvs.length) = some v := by
      have hlen : 0 < tvs.length := List.length_pos.mpr hne
      have : o.pick n % tvs.length < tvs.length := Nat.mod_lt _ hlen
      exact ⟨_, List.get?_eq_get this⟩
    obtain ⟨v, hv⟩ := hget
    have hrep : (mockLoop tgt tvs dur o n).sleeps ++ [step_sleep dur]
        = List.replicate (n + 1) (step_sleep dur) := by
      rw [h3, ← List.replicate_succ']
    have hprog : ((n : ℚ) + 1) / 100 = ((n + 1 : ℕ) : ℚ) / 100 := by push_cast; ring
    simp only [mockLoop, mockStep]
    split
    · simp_all
    · split
      · simp_all
      · split
        · simp_all
        · split
          · split
            · simp_all
            · simp_all [hrep, hprog]
          · simp_all [hrep, hprog]

/-- After the flag clear lands (before the check of step `c`), the loop
state never changes again: step `c` breaks and every later step is a
no-op. -/
theorem mockLoop_cancelled (tgt : Target) (tvs : List TestVector) (dur : ℚ) (o : Oracle)
    (c : Nat) (hc : o.clearedAt = some c) (hr : o.raiseAt = none) (hne : tvs ≠ [])
    (k : Nat) (hk : c < k) :
    mockLoop tgt tvs dur o k = { mockLoop tgt tvs dur o c with broken := true } := by
  induction k with
  | zero => omega
  | succ k ih =>
    rcases Nat.lt_or_ge c k with h | h
    · rw [mockLoop, ih h]
      simp [mockStep]
    · have hck : c = k := by omega
      subst hck
      obtain ⟨h1, h2, -, -⟩ :=
        mockLoop_active tgt tvs dur o hr hne c (fun i hi => by simp [flagAt, hc, hi])
      rw [mockLoop]
      simp [mockStep, h1, h2, flagAt, hc]

/-! ## Claim theorems -/

/-- **C1.** For every completed run of `run_mock_test` (either variant) in
which every supplied test vector has severity in
`{low, medium, high, critical}`, the final `summary.risk_score` equals the
sum over the findings present in the result's `vulnerabilities` list of
the weights `low=1, medium=2, high=3, critical=5`.  (The hypothesis on the
severities guarantees the `.get(..., 1)` default weight of 1 is never the
one applied; the equality is realized through `severityWeight`, which maps
the four named severities to their weights.) -/
theorem run_mock_test_risk_score (tgt : Target) (tvs : List TestVector) (dur : ℚ)
    (o : Oracle) (s : Session)
    (hsev : ∀ v ∈ tvs, v.severity = "low" ∨ v.severity = "medium" ∨
      v.severity = "high" ∨ v.severity = "critical") :
    (∀ s' res, run_mock_test_v1 tgt tvs dur o s = (s', RunOutcome.ok res) →
      res.summary.risk_score
        = (res.vulnerabilities.map (fun v => severityWeight v.severity)).sum) ∧
    (∀ s' res, run_mock_test_v2 tgt tvs dur o s = (s', RunOutcome.ok res) →
      res.summary.risk_score
        = (res.vulnerabilities.map (fun v => severityWeight v.severity)).sum) := by
  have key : ∀ s' res, run_mock_test_v1 tgt tvs dur o s = (s', RunOutcome.ok res) →
      res.summary.risk_score
        = (res.vulnerabilities.map (fun v => severityWeight v.severity)).sum := by
    intro s' res h
    obtain ⟨hrisk, -, -⟩ := mockLoop_counts tgt tvs dur o total_steps
    unfold run_mock_test_v1 at h
    generalize hg : mockLoop tgt tvs dur o total_steps = st at h
    rw [hg] at hrisk
    unfold finalizeRun at h
    split at h
    · rw [Prod.mk.injEq] at h
      exact RunOutcome.noConfusion h.2
    · rw [Prod.mk.injEq] at h
      obtain ⟨-, h2⟩ := h
      rw [RunOutcome.ok.injEq] at h2
      subst h2
      simpa using hrisk
  refine ⟨key, ?_⟩
  intro s' res h
  simp only [run_mock_test_v2] at h
  rw [Prod.mk.injEq] at h
  obtain ⟨-, h2⟩ := h
  exact key _ _ (by rw [← h2])

set_option maxRecDepth 10000 in
/-- Witness for C1: the concrete normal execution `exOracle` completes
with `exResult` (three critical findings), whose `risk_score` 15 is the
severity-weighted sum over its `vulnerabilities`. -/
theorem run_mock_test_risk_score_witness :
    exResult.summary.risk_score
      = (exResult.vulnerabilities.map (fun v => severityWeight v.severity)).sum := by
  have h2 : (run_mock_test_v2 exTarget exVectors 1 exOracle exSession).2
      = RunOutcome.ok exResult := by decide
  exact (run_mock_test_risk_score exTarget exVectors 1 exOracle exSession (by decide)).2
    (run_mock_test_v2 exTarget exVectors 1 exOracle exSession).1 exResult (by rw [← h2])

set_option maxRecDepth 10000 in
/-- **C2, counterexample.** The claim asserts that on every execution of
`run_mock_test` in which an exception is raised during the step loop,
`running` is forced to false on that exit path.  In the first variant
(guard.py:748-829), whose `except` block (guard.py:817-829) never touches
`running_test` and which has no `finally:`, a concrete execution that
raises at step 2 exits through the exception path with `running_test`
still `true`. -/
theorem run_mock_test_v1_exception_keeps_running :
    (run_mock_test_v1 exTarget exVectors 1 exOracleRaise exSession).2.isErr = true ∧
    (run_mock_test_v1 exTarget exVectors 1 exOracleRaise exSession).1.running_test = true := by
  constructor <;> rfl

/-- **C2, amended.** For every execution of `run_mock_test` in which an
exception is raised during the step loop, the exception is caught (the
function returns the `error_details` value instead of propagating); the
payload carries `error=true`, the message, the stack-trace text and a
timestamp; and the session error slot is set to
`"Test execution failed: <message>"`.  `running` is forced to false on
that exit path in the second variant (guard.py:1895-1980, whose `finally:`
resets it); the first variant (guard.py:748-829) leaves the shared flag
with whatever value it had (`true` unless externally cleared). -/
theorem run_mock_test_error_handling (tgt : Target) (tvs : List TestVector) (dur : ℚ)
    (o : Oracle) (s : Session) :
    (∀ s' ed, run_mock_test_v2 tgt tvs dur o s = (s', RunOutcome.err ed) →
      ed.error = true ∧ ed.traceback = o.tracebackText ∧ ed.timestamp = o.finalStamp ∧
      s'.error_message = some ("Test execution failed: " ++ ed.error_message) ∧
      s'.running_test = false) ∧
    (∀ s' ed, run_mock_test_v1 tgt tvs dur o s = (s', RunOutcome.err ed) →
      ed.error = true ∧ ed.traceback = o.tracebackText ∧ ed.timestamp = o.finalStamp ∧
      s'.error_message = some ("Test execution failed: " ++ ed.error_message) ∧
      s'.running_test = o.clearedAt.isNone) := by
  have key : ∀ s' ed, run_mock_test_v1 tgt tvs dur o s = (s', RunOutcome.err ed) →
      ed.error = true ∧ ed.traceback = o.tracebackText ∧ ed.timestamp = o.finalStamp ∧
      s'.error_message = some ("Test execution failed: " ++ ed.error_message) ∧
      s'.running_test = o.clearedAt.isNone := by
    intro s' ed h
    unfold run_mock_test_v1 at h
    generalize hg : mockLoop tgt tvs dur o total_steps = st at h
    unfold finalizeRun at h
    split at h
    · rw [Prod.mk.injEq] at h
      obtain ⟨h1, h2⟩ := h
      rw [RunOutcome.err.injEq] at h2
      subst h2
      subst h1
      exact ⟨rfl, rfl, rfl, by simp, by simp⟩
    · rw [Prod.mk.injEq] at h
      exact RunOutcome.noConfusion h.2
  constructor
  · intro s' ed h
    simp only [run_mock_test_v2] at h
    rw [Prod.mk.injEq] at h
    obtain ⟨h1, h2⟩ := h
    obtain ⟨k1, k2, k3, k4, k5⟩ := key _ _ (by rw [← h2])
    subst h1
    exact ⟨k1, k2, k3, by simpa using k4, by simp⟩
  · exact key

set_option maxRecDepth 10000 in
/-- Witness for the amended C2: the raising execution `exOracleRaise`
exits the second variant through the exception path with payload
`exErrorDetails`, the error slot set, and `running_test = false`. -/
theorem run_mock_test_error_handling_witness :
    exErrorDetails.error = true ∧
    exErrorDetails.traceback = exOracleRaise.tracebackText ∧
    exErrorDetails.timestamp = exOracleRaise.finalStamp ∧
    (run_mock_test_v2 exTarget exVectors 1 exOracleRaise exSession).1.error_message
        = some ("Test execution failed: " ++ exErrorDetails.error_message) ∧
    (run_mock_test_v2 exTarget exVectors 1 exOracleRaise exSession).1.running_test
        = false := by
  have h2 : (run_mock_test_v2 exTarget exVectors 1 exOracleRaise exSession).2
      = RunOutcome.err exErrorDetails := by decide
  exact (run_mock_test_error_handling exTarget exVectors 1 exOracleRaise exSession).1
    (run_mock_test_v2 exTarget exVectors 1 exOracleRaise exSession).1 exErrorDetails
    (by rw [← h2])

/-- **C3.** After every run of `run_mock_test` (either variant) that
completes — normally or by cancellation, i.e. returns a finalized result —
the session counter `vulnerabilities_found` equals the length of the
`vulnerabilities` list of the live `RunResult` stored in
`test_results` (and so does the summary counter).  In the embedding the
returned session is the state at completion, and no later mutation exists
until a new run resets the counters, so the equality holds at every
observation point thereafter. -/
theorem run_mock_test_counter (tgt : Target) (tvs : List TestVector) (dur : ℚ)
    (o : Oracle) (s : Session) :
    (∀ s' res, run_mock_test_v1 tgt tvs dur o s = (s', RunOutcome.ok res) →
      s'.vulnerabilities_found = res.vulnerabilities.length ∧
      res.summary.vulnerabilities_found = res.vulnerabilities.length ∧
      s'.test_results = some res) ∧
    (∀ s' res, run_mock_test_v2 tgt tvs dur o s = (s', RunOutcome.ok res) →
      s'.vulnerabilities_found = res.vulnerabilities.length ∧
      res.summary.vulnerabilities_found = res.vulnerabilities.length ∧
      s'.test_results = some res) := by
  have key : ∀ s' res, run_mock_test_v1 tgt tvs dur o s = (s', RunOutcome.ok res) →
      s'.vulnerabilities_found = res.vulnerabilities.length ∧
      res.summary.vulnerabilities_found = res.vulnerabilities.length ∧
      s'.test_results = some res := by
    intro s' res h
    obtain ⟨-, hsv, hsum⟩ := mockLoop_counts tgt tvs dur o total_steps
    unfold run_mock_test_v1 at h
    generalize hg : mockLoop tgt tvs dur o total_steps = st at h
    rw [hg] at hsv hsum
    unfold finalizeRun at h
    split at h
    · rw [Prod.mk.injEq] at h
      exact RunOutcome.noConfusion h.2
    · rw [Prod.mk.injEq] at h
      obtain ⟨h1, h2⟩ := h
      rw [RunOutcome.ok.injEq] at h2
      subst h2
      subst h1
      exact ⟨by simpa using hsv, by simpa using hsum, by simp⟩
  refine ⟨key, ?_⟩
  intro s' res h
  simp only [run_mock_test_v2] at h
  rw [Prod.mk.injEq] at h
  obtain ⟨h1, h2⟩ := h
  obtain ⟨k1, k2, k3⟩ := key _ _ (by rw [← h2])
  subst h1
  exact ⟨by simpa using k1, k2, by simpa using k3⟩

set_option maxRecDepth 10000 in
/-- Witness for C3: after the concrete normal execution, the session
counter, the stored result's summary counter and the length of its
findings list all agree (at value 3). -/
theorem run_mock_test_counter_witness :
    (run_mock_test_v2 exTarget exVectors 1 exOracle exSession).1.vulnerabilities_found
        = exResult.vulnerabilities.length ∧
    exResult.summary.vulnerabilities_found = exResult.vulnerabilities.length ∧
    (run_mock_test_v2 exTarget exVectors 1 exOracle exSession).1.test_results
        = some exResult := by
  have h2 : (run_mock_test_v2 exTarget exVectors 1 exOracle exSession).2
      = RunOutcome.ok exResult := by decide
  exact (run_mock_test_counter exTarget exVectors 1 exOracle exSession).2
    (run_mock_test_v2 exTarget exVectors 1 exOracle exSession).1 exResult (by rw [← h2])

/-- **C4.** For every run of `run_mock_test` cancelled mid-run by clearing
the `running` flag (the clear landing before the check of step `c`,
`c < 100`, on an otherwise exception-free execution), the function still
finalizes and stores a `RunResult` containing exactly the findings
recorded before cancellation, and the worker performs no further sleep
once the clear is observable: exactly `c` of the 100 steps slept, so the
flag — already `false` by the clear itself, and `false` on both variants'
exit — is acted upon within one step-sleep interval (`duration/100`
seconds), the sleep possibly in progress when the clear lands. -/
theorem run_mock_test_cancel (tgt : Target) (tvs : List TestVector) (dur : ℚ)
    (o : Oracle) (s : Session) (c : Nat)
    (hc : o.clearedAt = some c) (hlt : c < total_steps) (hr : o.raiseAt = none)
    (hne : tvs ≠ []) :
    ∃ res, (run_mock_test_v2 tgt tvs dur o s).2 = RunOutcome.ok res ∧
      (run_mock_test_v2 tgt tvs dur o s).1.test_results = some res ∧
      res.vulnerabilities = (mockLoop tgt tvs dur o c).vulnerabilities ∧
      (run_mock_test_v2 tgt tvs dur o s).1.running_test = false ∧
      (run_mock_test_v1 tgt tvs dur o s).1.running_test = false ∧
      (mockLoop tgt tvs dur o total_steps).sleeps.length = c := by
  have h100 : mockLoop tgt tvs dur o total_steps
      = { mockLoop tgt tvs dur o c with broken := true } :=
    mockLoop_cancelled tgt tvs dur o c hc hr hne total_steps hlt
  obtain ⟨hb, he, hs, hp⟩ := mockLoop_active tgt tvs dur o hr hne c
      (fun i hi => by simp [flagAt, hc, hi])
  simp only [run_mock_test_v2, run_mock_test_v1, h100, finalizeRun, he, hc]
  simp [hs]

/-- Witness for C4: the concrete execution cancelled before step 5 ends
with `running_test = false` and exactly 5 sleeps performed. -/
theorem run_mock_test_cancel_witness :
    (run_mock_test_v2 exTarget exVectors 1 exOracleCancel exSession).1.running_test
        = false ∧
    (mockLoop exTarget exVectors 1 exOracleCancel total_steps).sleeps.length = 5 := by
  obtain ⟨res, -, -, -, h4, -, h6⟩ :=
    run_mock_test_cancel exTarget exVectors 1 exOracleCancel exSession 5 rfl (by decide)
      rfl (by decide)
  exact ⟨h4, h6⟩

/-- **C5.** For every run of `run_mock_test` with `duration_seconds = D`
(`D` positive) that is not cancelled (and on which the environment raises
nothing), the number of elapsed polling steps is exactly 100 regardless of
`D` — `total_steps` is the constant 100 and all 100 sleeps occur — each
step sleeps `D/100` seconds, and after step `k` (1-based) `progress`
equals `k/100`. -/
theorem run_mock_test_steps (tgt : Target) (tvs : List TestVector) (dur : ℚ)
    (o : Oracle) (hD : 0 < dur) (hcl : o.clearedAt = none)
    (hr : o.raiseAt = none) (hne : tvs ≠ []) :
    total_steps = 100 ∧
    (mockLoop tgt tvs dur o total_steps).sleeps = List.replicate 100 (dur / 100) ∧
    (∀ k, k ≤ 100 → (mockLoop tgt tvs dur o k).progress = (k : ℚ) / 100) := by
  have hflag : ∀ i, flagAt o i = true := fun i => by simp [flagAt, hcl]
  refine ⟨rfl, ?_, ?_⟩
  · obtain ⟨-, -, hs, -⟩ :=
      mockLoop_active tgt tvs dur o hr hne total_steps (fun i _ => hflag i)
    simpa [step_sleep, total_steps] using hs
  · intro k hk
    obtain ⟨-, -, -, hp⟩ := mockLoop_active tgt tvs dur o hr hne k (fun i _ => hflag i)
    exact hp

/-- Witness for C5: the concrete normal execution with `D = 1` sleeps
exactly 100 times, `1/100` seconds each, and `progress` after step 7 is
`7/100`. -/
theorem run_mock_test_steps_witness :
    (mockLoop exTarget exVectors 1 exOracle total_steps).sleeps
        = List.replicate 100 ((1 : ℚ) / 100) ∧
    (mockLoop exTarget exVectors 1 exOracle 7).progress = ((7 : ℕ) : ℚ) / 100 :=
  ⟨(run_mock_test_steps exTarget exVectors 1 exOracle (by norm_num) rfl rfl
      (by decide)).2.1,
   (run_mock_test_steps exTarget exVectors 1 exOracle (by norm_num) rfl rfl
      (by decide)).2.2 7 (by norm_num)⟩

/-- One guarded slot initialization is stable under a second pass. -/
theorem initSlot_idem {α : Type} (x : Option α) (d : α) :
    initSlot (initSlot x d) d = initSlot x d := by
  cases x <;> rfl

/-- **C6.** Session-state initialization is idempotent: running
`initialize_session_state` twice yields the same state as running it once,
and every slot already populated before the call keeps its value (no
clobbering of state set by a prior interaction). -/
theorem initialize_session_state_spec (s : AppState) :
    initialize_session_state (initialize_session_state s) = initialize_session_state s ∧
    slotsPreserved s := by
  constructor
  · simp [initialize_session_state, initSlot_idem]
  · unfold slotsPreserved
    refine ⟨?_, ?_, ?_, ?_, ?_, ?_, ?_, ?_, ?_, ?_, ?_, ?_, ?_, ?_, ?_, ?_⟩ <;>
      (intro v h; simp [initialize_session_state, initSlot, h])

/-- Witness for C6: on a state whose `current_theme` slot is populated
with `"light"` (not the initializer's `"dark"` default), initialization is
idempotent and keeps the populated value. -/
theorem initialize_session_state_spec_witness :
    initialize_session_state (initialize_session_state exAppState)
        = initialize_session_state exAppState ∧
    (initialize_session_state exAppState).current_theme = some "light" :=
  ⟨(initialize_session_state_spec exAppState).1,
   (initialize_session_state_spec exAppState).2.2.2.2.2.2.1 "light" rfl⟩

/-- **C7.** The DOI format validator accepts `10.1000/xyz123` and rejects
`abc/123` and `10.1/`. -/
theorem is_valid_doi_format_examples :
    is_valid_doi_format "10.1000/xyz123" = true ∧
    is_valid_doi_format "abc/123" = false ∧
    is_valid_doi_format "10.1/" = false := by
  decide

/-- **C8.** `format_authors_apa` formats one author as `"Last, F."`
(family name, comma, initials); two authors as the two entries joined with
`", & "`; 2 to 20 authors as the comma-join of all but the last, then
`", & "`, then the last; and more than 20 authors as the first 19 joined
by commas, then `", ... "`, then the last author. -/
theorem format_authors_apa_spec :
    (∀ a : Author, format_authors_apa [a] = a.family ++ ", " ++ authorInitials a.given) ∧
    (∀ a b : Author,
      format_authors_apa [a, b] = formatAuthor a ++ ", & " ++ formatAuthor b) ∧
    (∀ l : List Author, 2 ≤ l.length → l.length ≤ 20 →
      format_authors_apa l
        = String.intercalate ", " (l.map formatAuthor).dropLast ++ ", & "
            ++ (l.map formatAuthor).getLastD "") ∧
    (∀ l : List Author, 20 < l.length →
      format_authors_apa l
        = String.intercalate ", " ((l.map formatAuthor).take 19) ++ ", ... "
            ++ (l.map formatAuthor).getLastD "") := by
  refine ⟨?_, ?_, ?_, ?_⟩
  · intro a
    rfl
  · intro a b
    rfl
  · intro l h2 h20
    have hne0 : l ≠ [] := by
      intro hl
      rw [hl] at h2
      simp at h2
    have h1 : (l.map formatAuthor).length ≠ 1 := by
      rw [List.length_map]
      omega
    have hmapne : l.map formatAuthor ≠ [] := by
      simp [hne0]
    have hle : (l.map formatAuthor).length ≤ 20 := by
      rw [List.length_map]
      exact h20
    simp [format_authors_apa, hmapne, h1, hle]
    rw [if_neg (show ¬l.length = 1 by omega), if_pos h20]
  · intro l h20
    have hne0 : l ≠ [] := by
      intro hl
      rw [hl] at h20
      simp at h20
    have h1 : (l.map formatAuthor).length ≠ 1 := by
      rw [List.length_map]
      omega
    have hmapne : l.map formatAuthor ≠ [] := by
      simp [hne0]
    have hgt : ¬((l.map formatAuthor).length ≤ 20) := by
      rw [List.length_map]
      omega
    simp [format_authors_apa, hmapne, h1, hgt]
    rw [if_neg (show ¬l.length = 1 by omega), if_neg (show ¬l.length ≤ 20 by omega)]

/-- Witness for C8: the 2-20-author clause at a concrete three-author
list, and the more-than-20 clause at a concrete twenty-five-author list. -/
theorem format_authors_apa_spec_witness :
    format_authors_apa exAuthorsThree
        = String.intercalate ", " (exAuthorsThree.map formatAuthor).dropLast ++ ", & "
            ++ (exAuthorsThree.map formatAuthor).getLastD "" ∧
    format_authors_apa exAuthorsTwentyFive
        = String.intercalate ", " ((exAuthorsTwentyFive.map formatAuthor).take 19)
            ++ ", ... " ++ (exAuthorsTwentyFive.map formatAuthor).getLastD "" :=
  ⟨format_authors_apa_spec.2.2.1 exAuthorsThree (by decide) (by decide),
   format_authors_apa_spec.2.2.2 exAuthorsTwentyFive (by decide)⟩

/-- **C9.** For every uploaded file whose extension is not one of the
supported formats (`json`, `csv`, `xlsx`, `xls`, `pdf`, `xml`, `yaml`,
`yml`), `handle_multiple_file_formats` returns the explicit value
`{"error": "Unsupported file format: <ext>"}` — the total embedding
returns this value on that branch without consulting any parser, so no
exception can escape. -/
theorem handle_multiple_file_formats_unsupported (p : Parsers) (f : UploadedFile)
    (h : fileExtension f.name ∉ supportedExtensions) :
    handle_multiple_file_formats p f
      = FileOutcome.errorMap ("Unsupported file format: " ++ fileExtension f.name) := by
  simp only [supportedExtensions, List.mem_cons, List.not_mem_nil, or_false, not_or] at h
  obtain ⟨h1, h2, h3, h4, h5, h6, h7, h8⟩ := h
  simp [handle_multiple_file_formats, h1, h2, h3, h4, h5, h6, h7, h8]

/-- Witness for C9: an upload named `assessment.txt` (extension `txt`)
yields the unsupported-format error value. -/
theorem handle_multiple_file_formats_unsupported_witness :
    handle_multiple_file_formats exParsers exUpload
        = FileOutcome.errorMap ("Unsupported file format: " ++ fileExtension exUpload.name) :=
  handle_multiple_file_formats_unsupported exParsers exUpload (by decide)

/-- A string with a nonempty middle chunk is nonempty. -/
theorem middle_append_ne_empty (x y z : String) (hy : 0 < y.length) :
    x ++ y ++ z ≠ "" := by
  intro h
  have hl := congrArg String.length h
  simp [String.length_append] at hl
  omega

/-- **C10.** For the empty author list, `format_authors_apa` returns
`"Anonymous"`; moreover it returns a nonempty string on every author list,
and every citation string `format_citation` produces begins with the
`format_authors_apa` rendering of the article's authors — so every
citation has a non-empty author component. -/
theorem format_citation_author_component :
    format_authors_apa [] = "Anonymous" ∧
    (∀ authors : List Author, format_authors_apa authors ≠ "") ∧
    (∀ (a : Article) (c : String), format_citation (some a) = some (some c) →
      ∃ rest, c = format_authors_apa a.author ++ rest) := by
  refine ⟨rfl, ?_, ?_⟩
  · intro authors
    rcases authors with _ | ⟨a, _ | ⟨b, bs⟩⟩
    · decide
    · exact middle_append_ne_empty a.family ", " (authorInitials a.given) (by decide)
    · simp only [format_authors_apa]
      split
      · decide
      · split
        · exact middle_append_ne_empty a.family ", " (authorInitials a.given) (by decide)
        · split
          · exact middle_append_ne_empty _ ", & " _ (by decide)
          · exact middle_append_ne_empty _ ", ... " _ (by decide)
  · intro a c h
    simp only [format_citation] at h
    split at h
    · exact Option.noConfusion h
    · split at h
      · exact Option.noConfusion h
      · split at h
        · exact Option.noConfusion h
        · rw [Option.some.injEq, Option.some.injEq] at h
          subst h
          split
          · split
            · simp only [String.append_assoc]
              exact ⟨_, rfl⟩
            · simp only [String.append_assoc]
              exact ⟨_, rfl⟩
          · split
            · simp only [String.append_assoc]
              exact ⟨_, rfl⟩
            · simp only [String.append_assoc]
              exact ⟨_, rfl⟩

/-- Witness for C10: the empty-list clause, and nonemptiness at a concrete
author list. -/
theorem format_citation_author_component_witness :
    format_authors_apa [] = "Anonymous" ∧
    format_authors_apa [⟨"Smith", "John"⟩] ≠ "" :=
  ⟨format_citation_author_component.1,
   format_citation_author_component.2.1 [⟨"Smith", "John"⟩]⟩
